import Mathlib

/-!
Shallow embedding of the event-driven coordination core of the waddle XMPP
client (crates `core`, `xmpp`, `presence`, `mam`), together with proofs of
the behavioural properties claimed for it.

Strings are modelled as lists of characters (`Str`), timestamps as natural
numbers passed in explicitly (the source calls `Utc::now()` at the
corresponding points), and machine integers as `Nat` with explicit bounds
where overflow matters.
-/

abbrev Str := List Char

deriving instance DecidableEq for Except

/-! ## Channel validation (crates/core/src/event.rs) -/

/-- `name.split('.')` as in Rust: splits on every dot and keeps empty
segments, so the result is always non-empty. -/
def splitDots : Str → List Str
  | [] => [[]]
  | c :: rest =>
    if c = '.' then [] :: splitDots rest
    else
      match splitDots rest with
      | [] => [[c]]
      | s :: ss => (c :: s) :: ss

/-- `name.contains("..")` from `Channel::is_valid`. -/
def containsDoubleDot : Str → Bool
  | c1 :: c2 :: rest => (c1 == '.' && c2 == '.') || containsDoubleDot (c2 :: rest)
  | _ => false

/-- The character class `'a'..='z' | '0'..='9' | '.'` from `Channel::is_valid`. -/
def channelCharOk (c : Char) : Bool :=
  ('a' ≤ c && c ≤ 'z') || ('0' ≤ c && c ≤ '9') || c == '.'

/-- `Channel::is_valid` (event.rs lines 28-53): the early returns of the
source are written as one boolean conjunction in source order. -/
def Channel.is_valid (name : Str) : Bool :=
  !(name.isEmpty || name.head? == some '.' || name.getLast? == some '.'
      || containsDoubleDot name) &&
  !(name.any fun c => !channelCharOk c) &&
  (match splitDots name with
   | [] => false
   | p :: _ =>
     p == "system".data || p == "xmpp".data || p == "ui".data || p == "plugin".data)

/-- `Channel::new` (event.rs lines 15-25): `Ok(Self(name))` on validity,
error otherwise; the error payload is irrelevant to the claims, so the
result is an `Option`. -/
def Channel.new (name : Str) : Option Str :=
  if Channel.is_valid name then some name else none

/-- `Channel::domain` (event.rs lines 56-58): `split('.').next().unwrap_or("")`. -/
def Channel.domain (c : Str) : Str :=
  ((splitDots c).head?).getD []

/-- First dot-segment of a name, the spec's phrasing of what `domain`
returns. -/
def firstSegment (s : Str) : Str :=
  ((splitDots s).head?).getD []

/-- The four valid channel domains. -/
def channelDomains : List Str :=
  ["system".data, "xmpp".data, "ui".data, "plugin".data]

/-- Spec-side character class `[a-z0-9.]`. -/
def allowedChar (c : Char) : Prop :=
  ('a' ≤ c ∧ c ≤ 'z') ∨ ('0' ≤ c ∧ c ≤ '9') ∨ c = '.'

/-- Spec-side validity predicate for channel names, transcribed from the
spec sentence: non-empty; no leading/trailing dot; no `..`; characters
restricted to `[a-z0-9.]`; first dot-segment a valid domain. -/
def Channel.specValid (s : Str) : Prop :=
  s ≠ [] ∧ s.head? ≠ some '.' ∧ s.getLast? ≠ some '.' ∧
  ¬ ['.', '.'] <:+: s ∧
  (∀ c ∈ s, allowedChar c) ∧
  s.takeWhile (fun c => c != '.') ∈ channelDomains

/-! ## Event bus subscription routing (crates/core/src/event.rs) -/

/-- `has_glob_meta` (event.rs lines 639-647). The escapes `\x7b` and `\x7d`
are the two curly brace characters. -/
def has_glob_meta (segment : Str) : Bool :=
  segment.contains '*' || segment.contains '?' || segment.contains '['
    || segment.contains ']' || segment.contains '\x7b' || segment.contains '\x7d'
    || segment.contains '!'

/-- Error kinds of the event bus (crates/core/src/error.rs as used by
event.rs). -/
inductive EventBusError where
  | invalidChannel (channel : Str)
  | invalidPattern (pattern : Str)
  | channelClosed
  | lagged (count : Nat)
deriving DecidableEq

/-- Which of the four per-domain broadcast buffers a subscription is
attached to. -/
structure DomainReceivers where
  system : Bool
  xmpp : Bool
  ui : Bool
  plugin : Bool
deriving DecidableEq

/-- `BroadcastEventBus::receivers_for_pattern` (event.rs lines 498-548). -/
def BroadcastEventBus.receivers_for_pattern (pattern : Str) :
    Except EventBusError DomainReceivers :=
  let first_segment := firstSegment pattern
  if first_segment.isEmpty then
    .error (.invalidPattern pattern)
  else if has_glob_meta first_segment then
    .ok ⟨true, true, true, true⟩
  else if first_segment == "system".data then
    .ok ⟨true, false, false, false⟩
  else if first_segment == "xmpp".data then
    .ok ⟨false, true, false, false⟩
  else if first_segment == "ui".data then
    .ok ⟨false, false, true, false⟩
  else if first_segment == "plugin".data then
    .ok ⟨false, false, false, true⟩
  else
    .error (.invalidPattern pattern)

/-! ## Connection manager (crates/xmpp/src/connection.rs) -/

/-- Modelled from the spec: `ConnectionError` and its retryability
classification live in `crates/xmpp/src/error.rs`, which is not part of the
provided sources. Spec §4.3: "timeouts, network errors, server-disconnect
are retryable; authentication failure, protocol errors, and malformed
configuration are not." The variant payloads are the human-readable
messages the source carries. -/
inductive ConnectionError where
  | timeout
  | network (message : Str)
  | serverDisconnected
  | authenticationFailed (message : Str)
  | protocolError (message : Str)
  | invalidConfig (message : Str)
deriving DecidableEq

/-- Modelled from the spec: retryability classification of §4.3. -/
def ConnectionError.is_retryable : ConnectionError → Bool
  | .timeout => true
  | .network _ => true
  | .serverDisconnected => true
  | .authenticationFailed _ => false
  | .protocolError _ => false
  | .invalidConfig _ => false

/-- `ConnectionState` (connection.rs lines 21-27). -/
inductive ConnectionState where
  | disconnected
  | connecting
  | connected
  | reconnecting (attempt : Nat)
deriving DecidableEq

/-- `ConnectionManager::should_retry` (connection.rs lines 140-142):
`max_reconnect_attempts == 0 || attempt <= max_reconnect_attempts`. -/
def ConnectionManager.should_retry (max_reconnect_attempts attempt : Nat) : Bool :=
  max_reconnect_attempts == 0 || attempt ≤ max_reconnect_attempts

/-- `ConnectionManager::reconnect_delay` (connection.rs lines 144-151), in
seconds. `attempt` is a `u32` and the shift result a `u64`:
`attempt.saturating_sub(1)` is `Nat` subtraction, `1u64.checked_shl(shift)`
is `None` for shifts of 64 or more, and `unwrap_or(u64::MAX)` produces
`2 ^ 64 - 1`; the final `clamp(1, 60)` is written out as the two
comparisons it performs. -/
def ConnectionManager.reconnect_delay (attempt : Nat) : Nat :=
  let shift := attempt - 1
  let seconds := if shift < 64 then (1 <<< shift) % 2 ^ 64 else 2 ^ 64 - 1
  if seconds < 1 then 1 else if seconds > 60 then 60 else seconds

/-- The retry loop inside `ConnectionManager::connect` (connection.rs lines
75-111), driven by the sequence of outcomes the transport's `connect`
produces; the sleep between attempts is irrelevant to the result. The model
returns `none` when the loop would still be running after consuming every
scripted outcome, and otherwise the manager's final state together with
what `connect` returns. `reconnect_attempt` starts at 0 and
`next_attempt = reconnect_attempt.saturating_add(1)`. -/
def ConnectionManager.connectLoop (max_reconnect_attempts : Nat) :
    Nat → List (Except ConnectionError Unit) →
    Option (ConnectionState × Except ConnectionError Unit)
  | _, [] => none
  | _, .ok _ :: _ => some (.connected, .ok ())
  | reconnect_attempt, .error e :: rest =>
    let next_attempt := reconnect_attempt + 1
    let will_retry := e.is_retryable
        && ConnectionManager.should_retry max_reconnect_attempts next_attempt
    if will_retry then
      ConnectionManager.connectLoop max_reconnect_attempts next_attempt rest
    else
      some (.disconnected, .error e)

/-- `ConnectionManager::connect` (connection.rs lines 67-112): immediate
success when already connected, otherwise the retry loop starting from
`reconnect_attempt = 0`. -/
def ConnectionManager.connect (state : ConnectionState) (max_reconnect_attempts : Nat)
    (outcomes : List (Except ConnectionError Unit)) :
    Option (ConnectionState × Except ConnectionError Unit) :=
  match state with
  | .connected => some (.connected, .ok ())
  | _ => ConnectionManager.connectLoop max_reconnect_attempts 0 outcomes

/-! ## Shared event data model (crates/core/src/event.rs) -/

/-- `Subscription` (event.rs lines 331-339). -/
inductive Subscription where
  | none
  | to_
  | from_
  | both
  | remove
deriving DecidableEq

/-- `RosterItem` (event.rs lines 315-329). -/
structure RosterItem where
  jid : Str
  name : Option Str
  subscription : Subscription
  groups : List Str
deriving DecidableEq

/-- `MessageType` (event.rs lines 367-375). -/
inductive MessageType where
  | chat
  | groupchat
  | normal
  | headline
  | error
deriving DecidableEq

/-- `ChatMessage` (event.rs lines 342-365); the timestamp is a `Nat`. -/
structure ChatMessage where
  id : Str
  from_ : Str
  to_ : Str
  body : Str
  timestamp : Nat
  message_type : MessageType
  thread : Option Str
deriving DecidableEq

/-- `PresenceShow` (event.rs lines 378-393). -/
inductive PresenceShow where
  | available
  | chat
  | away
  | xa
  | dnd
  | unavailable
deriving DecidableEq

/-- The `EventPayload` variants (event.rs lines 153-312, plus the
`MamQueryRequested`/`MamFinReceived` variants used by crates/mam) that the
claims exercise; the remaining variants all fall under the managers'
wildcard arms and are interchangeable for their behaviour. -/
inductive EventPayload where
  | connectionEstablished (jid : Str)
  | connectionLost (reason : Str) (will_retry : Bool)
  | connectionReconnecting (attempt : Nat)
  | syncStarted
  | syncCompleted (messages_synced : Nat)
  | errorOccurred (component : Str) (message : Str) (recoverable : Bool)
  | rosterReceived (items : List RosterItem)
  | presenceChanged (jid : Str) (show_ : PresenceShow) (status : Option Str)
  | ownPresenceChanged (show_ : PresenceShow) (status : Option Str)
  | presenceSetRequested (show_ : PresenceShow) (status : Option Str)
  | mamResultReceived (query_id : Str) (messages : List ChatMessage) (complete : Bool)
  | mamFinReceived (iq_id : Str) (complete : Bool) (last_id : Option Str)
  | mamQueryRequested (query_id : Str) (after : Option Str) (before : Option Str) (max : Nat)
deriving DecidableEq

/-- An event as published on the bus, reduced to the fields the claims
observe: channel name, optional correlation id (a `Nat` stands for the
`Uuid`), payload. -/
structure Emitted where
  channel : Str
  correlation : Option Nat
  payload : EventPayload
deriving DecidableEq

/-! ## Presence manager (crates/presence/src/lib.rs) -/

/-- `PresenceInfo` (presence lib.rs lines 27-34); `last_updated` is a `Nat`
timestamp and `priority` an `i8` modelled as `Int`. -/
structure PresenceInfo where
  jid : Str
  show_ : PresenceShow
  status : Option Str
  priority : Int
  last_updated : Nat
deriving DecidableEq

/-- `bare_jid` (presence lib.rs lines 203-208): the prefix of the jid up to
(excluding) its first `/`, the whole jid when there is none — the
`find('/')` plus slice of the source written as one recursion. -/
def bare_jid : Str → Str
  | [] => []
  | c :: rest => if c = '/' then [] else c :: bare_jid rest

/-- `PresenceInfo::unavailable` (presence lib.rs lines 37-45); `now` stands
for the `Utc::now()` call. -/
def PresenceInfo.unavailable (jid : Str) (now : Nat) : PresenceInfo :=
  { jid := jid, show_ := .unavailable, status := none, priority := 0, last_updated := now }

/-- The contact map `HashMap<String, PresenceInfo>`, observed through
`lookup`; `insert` is modelled by prepending (the most recent binding for a
key shadows older ones). -/
abbrev ContactMap := List (Str × PresenceInfo)

/-- The presence manager's state: own presence plus the contact map
(presence lib.rs lines 48-53). -/
structure PresenceState where
  own : PresenceInfo
  contacts : ContactMap
deriving DecidableEq

/-- `PresenceManager::get_presence` (presence lib.rs lines 75-83). -/
def PresenceManager.get_presence (contacts : ContactMap) (jid : Str) (now : Nat) :
    PresenceInfo :=
  let bare := bare_jid jid
  (contacts.lookup bare).getD (PresenceInfo.unavailable bare now)

/-- `PresenceManager::handle_event` (presence lib.rs lines 115-161)
together with `send_initial_presence` (lines 164-173), as a transition on
the manager state returning the list of events it publishes. `now` stands
for the `Utc::now()` calls of the handled arm. -/
def PresenceManager.handle_event (st : PresenceState) (now : Nat) (payload : EventPayload) :
    PresenceState × List Emitted :=
  match payload with
  | .connectionEstablished jid =>
    ({ own := { jid := jid, show_ := .available, status := none, priority := 0,
                last_updated := now },
       contacts := [] },
     [⟨"ui.presence.set".data, none, .presenceSetRequested .available none⟩])
  | .connectionLost _ _ =>
    ({ own := { st.own with show_ := .unavailable, status := none, last_updated := now },
       contacts := [] },
     [])
  | .presenceChanged jid show_ status =>
    let bare := bare_jid jid
    ({ st with contacts :=
        (bare, { jid := bare, show_ := show_, status := status, priority := 0,
                 last_updated := now }) :: st.contacts },
     [])
  | .ownPresenceChanged show_ status =>
    ({ st with own := { st.own with show_ := show_, status := status, last_updated := now } },
     [])
  | _ => (st, [])

/-! ## MAM manager (crates/mam/src/lib.rs) -/

/-- `MamError` (mam lib.rs lines 15-31); `queryFailed` keeps the triggering
bus error instead of its formatted message. -/
inductive MamError where
  | notSupported
  | queryFailed (e : EventBusError)
  | timeout (seconds : Nat)
deriving DecidableEq

/-- `MamSyncResult` (mam lib.rs lines 33-37). -/
structure MamSyncResult where
  messages_synced : Nat
  complete : Bool
deriving DecidableEq

/-- What the MAM result collector's subscription yields on each `recv`:
either an event (its payload is all the collector inspects) or a bus
error. -/
inductive CollectorInput where
  | ev (payload : EventPayload)
  | busError (e : EventBusError)
deriving DecidableEq

/-- The loop of `MamManager::collect_query_results` (mam lib.rs lines
271-305) over the scripted sequence of `recv` outcomes; an exhausted
script models the 30-second timeout firing. -/
def collectLoop (messages : List ChatMessage) (last_id : Option Str) :
    List CollectorInput → Except MamError (List ChatMessage × Bool × Option Str)
  | [] => .error (.timeout 30)
  | .ev (.mamResultReceived _ page_msgs _) :: rest =>
    collectLoop (messages ++ page_msgs)
      (match page_msgs.getLast? with
       | some m => some m.id
       | none => last_id)
      rest
  | .ev (.mamFinReceived _ complete fin_last) :: rest =>
    let _ := rest
    .ok (messages, complete,
      match fin_last with
      | some id => some id
      | none => last_id)
  | .ev _ :: rest => collectLoop messages last_id rest
  | .busError (.lagged _) :: rest => collectLoop messages last_id rest
  | .busError e :: _ => .error (.queryFailed e)

/-- `MamManager::collect_query_results` (mam lib.rs lines 257-306). The
`query_id` parameter is accepted and ignored, exactly as in the source
(`_query_id`). -/
def MamManager.collect_query_results (query_id : Str) (inputs : List CollectorInput) :
    Except MamError (List ChatMessage × Bool × Option Str) :=
  let _ := query_id
  collectLoop [] none inputs

/-- The database state the MAM manager reads and writes: the
`mam_sync_state` table as an association list keyed by jid (most recent
binding first, giving `INSERT OR REPLACE` semantics under `lookup`) and the
`messages` table in insertion order. -/
structure MamDb where
  syncState : List (Str × Str)
  messages : List ChatMessage
deriving DecidableEq

/-- The jid normalisation shared by `get_last_stanza_id` and
`update_sync_state` (mam lib.rs lines 177-181, 195-199): an empty jid means
the account-wide `"__global__"` row. -/
def normJid (jid : Str) : Str :=
  if jid.isEmpty then "__global__".data else jid

/-- `MamManager::get_last_stanza_id` (mam lib.rs lines 176-192). -/
def MamManager.get_last_stanza_id (db : MamDb) (jid : Str) : Option Str :=
  db.syncState.lookup (normJid jid)

/-- `MamManager::update_sync_state` (mam lib.rs lines 194-212):
`INSERT OR REPLACE` of the cursor row. -/
def MamManager.update_sync_state (db : MamDb) (jid stanza_id : Str) : MamDb :=
  { db with syncState := (normJid jid, stanza_id) :: db.syncState }

/-- `MamManager::persist_message` (mam lib.rs lines 214-233):
`INSERT OR IGNORE` keyed on the message id. -/
def MamManager.persist_message (db : MamDb) (m : ChatMessage) : MamDb :=
  if db.messages.any (fun q => q.id == m.id) then db
  else { db with messages := db.messages ++ [m] }

/-- One successfully collected page: what `collect_query_results` returned
for one iteration of the `sync_since` loop. -/
structure PageResult where
  msgs : List ChatMessage
  finComplete : Bool
  lastId : Option Str
deriving DecidableEq

/-- The body of one `sync_since` loop iteration after collection (mam
lib.rs lines 120-129): persist the page, then update the cursor when a
last id was seen. -/
def applyPage (db : MamDb) (p : PageResult) : MamDb :=
  let db1 := p.msgs.foldl MamManager.persist_message db
  match p.lastId with
  | some id => MamManager.update_sync_state db1 [] id
  | none => db1

/-- The `after` value carried to the next iteration (mam lib.rs line 128). -/
def nextAfter (after : Option Str) (p : PageResult) : Option Str :=
  match p.lastId with
  | some id => some id
  | none => after

/-- The loop exit condition `complete = fin_complete || page_count == 0`
(mam lib.rs line 131). -/
def pageComplete (p : PageResult) : Bool :=
  p.finComplete || p.msgs.length == 0

/-- The `while !complete` loop of `sync_since` (mam lib.rs lines 112-132)
over the script of successfully collected pages. Returns the final
database, the accumulated `total_synced`, the concatenation of every
collected message, and the `ui.mam.query` events emitted in order; `none`
models a run whose collector failed (timeout or bus error) before the loop
completed. -/
def syncLoop (query_id : Str) (db : MamDb) (after : Option Str) :
    List PageResult → Option (MamDb × Nat × List ChatMessage × List Emitted)
  | [] => none
  | p :: rest =>
    let q : Emitted := ⟨"ui.mam.query".data, none,
      .mamQueryRequested query_id after none 50⟩
    let db2 := applyPage db p
    if pageComplete p then
      some (db2, p.msgs.length, p.msgs, [q])
    else
      match syncLoop query_id db2 (nextAfter after p) rest with
      | some (db3, n, ms, es) => some (db3, p.msgs.length + n, p.msgs ++ ms, q :: es)
      | none => none

/-- `MamManager::sync_since` (mam lib.rs lines 92-150): load the
`"__global__"` cursor, emit `system.sync.started` with the fresh
correlation id, run the paginated loop, emit `system.sync.completed` with
the same correlation id and the total. `query_id` and `corr` stand for the
two `Uuid::new_v4()` allocations. -/
def MamManager.sync_since (db : MamDb) (query_id : Str) (corr : Nat)
    (pages : List PageResult) :
    Option (MamDb × MamSyncResult × List Emitted) :=
  let after := MamManager.get_last_stanza_id db []
  match syncLoop query_id db after pages with
  | some (db', total, _, es) =>
    some (db', { messages_synced := total, complete := true },
      ⟨"system.sync.started".data, some corr, .syncStarted⟩ ::
        (es ++ [⟨"system.sync.completed".data, some corr, .syncCompleted total⟩]))
  | none => none

/-- Recogniser for emitted `SyncStarted` events. -/
def isSyncStartedEvt (e : Emitted) : Bool :=
  match e.payload with
  | .syncStarted => true
  | _ => false

/-- Recogniser for emitted `SyncCompleted` events. -/
def isSyncCompletedEvt (e : Emitted) : Bool :=
  match e.payload with
  | .syncCompleted _ => true
  | _ => false

/-- Recogniser for `MamFinReceived` collector inputs. -/
def isFinInput : CollectorInput → Bool
  | .ev (.mamFinReceived _ _ _) => true
  | _ => false

/-- Recogniser for collector inputs that abort the collection: any bus
error other than `Lagged`. -/
def isFatalInput : CollectorInput → Bool
  | .busError (.lagged _) => false
  | .busError _ => true
  | _ => false

/-- All messages carried by `MamResultReceived` events in a collector
input sequence, in order, whatever their `query_id`. -/
def resultMessages : List CollectorInput → List ChatMessage
  | [] => []
  | .ev (.mamResultReceived _ msgs _) :: rest => msgs ++ resultMessages rest
  | _ :: rest => resultMessages rest

/-- The collector's `last_id` accumulator after processing a sequence of
inputs, starting from `acc`. -/
def lastIdAfter (acc : Option Str) : List CollectorInput → Option Str
  | [] => acc
  | .ev (.mamResultReceived _ msgs _) :: rest =>
    lastIdAfter
      (match msgs.getLast? with
       | some m => some m.id
       | none => acc)
      rest
  | _ :: rest => lastIdAfter acc rest

/-- A concrete archived message, used by the witnesses. -/
def mamMsgW : ChatMessage :=
  { id := "m1".data, from_ := "alice@x".data, to_ := "bob@x".data,
    body := "hi".data, timestamp := 0, message_type := .chat, thread := none }

/-- An empty MAM database, used by the witnesses. -/
def mamDbW : MamDb := { syncState := [], messages := [] }

/-- A concrete final page carrying one message, used by the witnesses. -/
def mamPageW : PageResult :=
  { msgs := [mamMsgW], finComplete := true, lastId := some "a1".data }

/-- The database state after syncing `mamPageW` into `mamDbW`. -/
def mamDbW1 : MamDb :=
  { syncState := [("__global__".data, "a1".data)], messages := [mamMsgW] }

/-- The events emitted by the concrete witness run of `sync_since`. -/
def mamEventsW : List Emitted :=
  [⟨"system.sync.started".data, some 7, .syncStarted⟩,
   ⟨"ui.mam.query".data, none, .mamQueryRequested "q".data none none 50⟩,
   ⟨"system.sync.completed".data, some 7, .syncCompleted 1⟩]

/-- A concrete collector prefix whose one result event carries a
`query_id` different from the requesting query's, used by a witness. -/
def preW : List CollectorInput :=
  [.ev (.mamResultReceived "other".data [mamMsgW] false)]

/-! ## Helper lemmas: channel name splitting -/

theorem splitDots_ne_nil (s : Str) : splitDots s ≠ [] := by
  cases s with
  | nil => simp [splitDots]
  | cons c rest =>
    unfold splitDots
    split
    · simp
    · cases h : splitDots rest <;> simp

theorem splitDots_head (s : Str) :
    (splitDots s).head? = some (s.takeWhile (fun c => c != '.')) := by
  induction s with
  | nil => rfl
  | cons c rest ih =>
    unfold splitDots
    by_cases hc : c = '.'
    · subst hc
      simp [List.takeWhile_cons]
    · cases h : splitDots rest with
      | nil => exact absurd h (splitDots_ne_nil rest)
      | cons p ss =>
        rw [h] at ih
        simp only [List.head?_cons, Option.some.injEq] at ih
        simp [List.takeWhile_cons, hc, ih]

theorem containsDoubleDot_iff (s : Str) :
    containsDoubleDot s = true ↔ ['.', '.'] <:+: s := by
  induction s with
  | nil =>
    simp only [containsDoubleDot]
    constructor
    · intro h; exact absurd h (by simp)
    · intro h
      have := h.length_le
      simp at this
  | cons c rest ih =>
    cases rest with
    | nil =>
      simp only [containsDoubleDot]
      constructor
      · intro h; exact absurd h (by simp)
      · intro h
        have := h.length_le
        simp at this
    | cons c2 rest2 =>
      rw [List.infix_cons_iff]
      simp only [containsDoubleDot, Bool.or_eq_true, Bool.and_eq_true, beq_iff_eq]
      rw [ih, List.cons_prefix_cons, List.cons_prefix_cons]
      simp [eq_comm]

theorem channelCharOk_iff (c : Char) : channelCharOk c = true ↔ allowedChar c := by
  simp [channelCharOk, allowedChar, or_assoc]

theorem Channel.is_valid_iff (s : Str) :
    Channel.is_valid s = true ↔ Channel.specValid s := by
  obtain ⟨p, ss, hps⟩ : ∃ p ss, splitDots s = p :: ss := by
    cases h : splitDots s with
    | nil => exact absurd h (splitDots_ne_nil s)
    | cons p ss => exact ⟨p, ss, rfl⟩
  have hp : s.takeWhile (fun c => c != '.') = p := by
    have h := splitDots_head s
    rw [hps] at h
    simpa [eq_comm] using h
  have hdd : containsDoubleDot s = false ↔ ¬ ['.', '.'] <:+: s := by
    rw [← containsDoubleDot_iff s]
    simp
  have hie : (List.isEmpty s = false) ↔ s ≠ [] := by cases s <;> simp
  unfold Channel.is_valid Channel.specValid
  rw [hps, hp]
  simp only [Bool.and_eq_true, Bool.not_eq_true', Bool.or_eq_false_iff,
    beq_eq_false_iff_ne, List.any_eq_false, Bool.not_eq_false,
    channelCharOk_iff, Bool.or_eq_true, beq_iff_eq, hdd,
    channelDomains, List.mem_cons, List.not_mem_nil, or_false,
    hie, ne_eq]
  tauto

/-- C3: `Channel::new(s)` succeeds exactly when `s` is non-empty, has no
leading or trailing dot, contains no `..`, uses only characters in
`[a-z0-9.]`, and its first dot-segment is one of
system/xmpp/ui/plugin; on success `domain()` returns that first
dot-segment (and it is one of the four domains). -/
theorem channel_new_valid_iff (s : Str) :
    ((Channel.new s).isSome ↔ Channel.specValid s) ∧
    (∀ c, Channel.new s = some c →
      Channel.domain c = s.takeWhile (fun ch => ch != '.') ∧
      Channel.domain c ∈ channelDomains) := by
  have hdom : Channel.domain s = s.takeWhile (fun ch => ch != '.') := by
    unfold Channel.domain
    rw [splitDots_head s]
    rfl
  constructor
  · rw [← Channel.is_valid_iff]
    unfold Channel.new
    cases hv : Channel.is_valid s <;> simp [hv]
  · intro c hc
    unfold Channel.new at hc
    by_cases hv : Channel.is_valid s = true
    · rw [if_pos hv] at hc
      injection hc with h
      subst h
      refine ⟨hdom, ?_⟩
      rw [hdom]
      exact ((Channel.is_valid_iff s).mp hv).2.2.2.2.2
    · rw [if_neg hv] at hc
      cases hc

/-- C2 counterexample: for the pattern `"foo"` the first dot-segment is
literal (no glob metacharacter) and is not a valid domain, yet
`receivers_for_pattern` does not attach the subscription to all four
domain buffers — it rejects the pattern with `InvalidPattern`. -/
theorem receivers_literal_nondomain_cex :
    has_glob_meta (firstSegment "foo".data) = false ∧
    firstSegment "foo".data ∉ channelDomains ∧
    BroadcastEventBus.receivers_for_pattern "foo".data ≠
      Except.ok ⟨true, true, true, true⟩ ∧
    BroadcastEventBus.receivers_for_pattern "foo".data =
      Except.error (.invalidPattern "foo".data) := by
  decide

/-- C2 (amended): when the first pattern segment contains no glob
metacharacter, the subscription attaches only to the buffer of that
segment when it names a valid domain, and otherwise (first segment
literal but not a valid domain, including empty) `subscribe` fails with
`InvalidPattern` instead of attaching to all four buffers. -/
theorem receivers_literal_first_segment (pattern : Str)
    (hglob : has_glob_meta (firstSegment pattern) = false) :
    (firstSegment pattern = "system".data →
      BroadcastEventBus.receivers_for_pattern pattern = .ok ⟨true, false, false, false⟩) ∧
    (firstSegment pattern = "xmpp".data →
      BroadcastEventBus.receivers_for_pattern pattern = .ok ⟨false, true, false, false⟩) ∧
    (firstSegment pattern = "ui".data →
      BroadcastEventBus.receivers_for_pattern pattern = .ok ⟨false, false, true, false⟩) ∧
    (firstSegment pattern = "plugin".data →
      BroadcastEventBus.receivers_for_pattern pattern = .ok ⟨false, false, false, true⟩) ∧
    (firstSegment pattern ∉ channelDomains →
      BroadcastEventBus.receivers_for_pattern pattern =
        .error (.invalidPattern pattern)) := by
  refine ⟨?_, ?_, ?_, ?_, ?_⟩ <;> intro h
  · rw [h] at hglob
    simp only [BroadcastEventBus.receivers_for_pattern, h, hglob]
    simp
  · rw [h] at hglob
    simp only [BroadcastEventBus.receivers_for_pattern, h, hglob]
    simp
  · rw [h] at hglob
    simp only [BroadcastEventBus.receivers_for_pattern, h, hglob]
    simp
  · rw [h] at hglob
    simp only [BroadcastEventBus.receivers_for_pattern, h, hglob]
    simp
  · simp only [channelDomains, List.mem_cons, List.not_mem_nil, or_false,
      not_or] at h
    obtain ⟨h1, h2, h3, h4⟩ := h
    simp only [BroadcastEventBus.receivers_for_pattern, hglob]
    simp [h1, h2, h3, h4]

/-- Witness for the amended C2 at the concrete pattern `"foo"`. -/
theorem receivers_literal_first_segment_witness :
    (firstSegment "foo".data = "system".data →
      BroadcastEventBus.receivers_for_pattern "foo".data = .ok ⟨true, false, false, false⟩) ∧
    (firstSegment "foo".data = "xmpp".data →
      BroadcastEventBus.receivers_for_pattern "foo".data = .ok ⟨false, true, false, false⟩) ∧
    (firstSegment "foo".data = "ui".data →
      BroadcastEventBus.receivers_for_pattern "foo".data = .ok ⟨false, false, true, false⟩) ∧
    (firstSegment "foo".data = "plugin".data →
      BroadcastEventBus.receivers_for_pattern "foo".data = .ok ⟨false, false, false, true⟩) ∧
    (firstSegment "foo".data ∉ channelDomains →
      BroadcastEventBus.receivers_for_pattern "foo".data =
        .error (.invalidPattern "foo".data)) :=
  receivers_literal_first_segment "foo".data (by decide)

/-- Witness for C3 at the concrete channel name `"system.ab"`. -/
theorem channel_new_valid_iff_witness :
    ((Channel.new "system.ab".data).isSome ↔ Channel.specValid "system.ab".data) ∧
    (∀ c, Channel.new "system.ab".data = some c →
      Channel.domain c = ("system.ab".data).takeWhile (fun ch => ch != '.') ∧
      Channel.domain c ∈ channelDomains) :=
  channel_new_valid_iff "system.ab".data

/-- C4: for every attempt number `n ≥ 1`, `reconnect_delay(n)` equals
`min(60, max(1, 2^(n-1)))` seconds, and the sequence for `n = 1..7` is
1, 2, 4, 8, 16, 32, 60 seconds. -/
theorem reconnect_delay_formula (n : Nat) (_h : 1 ≤ n) :
    ConnectionManager.reconnect_delay n = min 60 (max 1 (2 ^ (n - 1))) ∧
    (List.range 7).map (fun i => ConnectionManager.reconnect_delay (i + 1)) =
      [1, 2, 4, 8, 16, 32, 60] := by
  constructor
  · simp only [ConnectionManager.reconnect_delay]
    by_cases hs : n - 1 < 64
    · have hpow : (1 <<< (n - 1)) % 2 ^ 64 = 2 ^ (n - 1) := by
        rw [Nat.shiftLeft_eq, one_mul,
          Nat.mod_eq_of_lt (Nat.pow_lt_pow_right one_lt_two hs)]
      rw [if_pos hs, hpow]
      have h1 : 1 ≤ 2 ^ (n - 1) := Nat.one_le_two_pow
      generalize 2 ^ (n - 1) = p at *
      rcases le_or_lt p 60 with h60 | h60
      · rw [if_neg (by omega), if_neg (by omega)]
        omega
      · rw [if_neg (by omega), if_pos (by omega)]
        omega
    · have h64 : 2 ^ 64 ≤ 2 ^ (n - 1) :=
        Nat.pow_le_pow_right (by norm_num) (by omega)
      rw [if_neg hs]
      have hbig : (60 : Nat) < 2 ^ 64 - 1 := by norm_num
      rw [if_neg (by omega), if_pos (by omega)]
      have : (60 : Nat) < 2 ^ (n - 1) := by
        calc (60 : Nat) < 2 ^ 64 := by norm_num
          _ ≤ 2 ^ (n - 1) := h64
      omega
  · decide

/-- Witness for C4 at the concrete attempt number 7. -/
theorem reconnect_delay_formula_witness :
    1 ≤ 7 ∧
    (ConnectionManager.reconnect_delay 7 = min 60 (max 1 (2 ^ (7 - 1))) ∧
      (List.range 7).map (fun i => ConnectionManager.reconnect_delay (i + 1)) =
        [1, 2, 4, 8, 16, 32, 60]) :=
  ⟨by decide, reconnect_delay_formula 7 (by decide)⟩

/-- C5: when a transport connect attempt fails inside `connect()`,
`will_retry = error.is_retryable() && (max_attempts == 0 || attempt + 1 <=
max_attempts)`; when `will_retry` is false the manager ends Disconnected
and `connect` returns that error, and otherwise the error is not returned —
the loop continues with the next attempt. `ConnectionError::is_retryable`
is modelled from the spec (see its definition above). -/
theorem connect_failure_will_retry (max_reconnect_attempts a : Nat)
    (e : ConnectionError) (rest : List (Except ConnectionError Unit)) :
    ConnectionManager.connectLoop max_reconnect_attempts a (.error e :: rest) =
      (if e.is_retryable && (max_reconnect_attempts == 0
          || decide (a + 1 ≤ max_reconnect_attempts)) then
        ConnectionManager.connectLoop max_reconnect_attempts (a + 1) rest
      else
        some (.disconnected, .error e)) := by
  simp only [ConnectionManager.connectLoop, ConnectionManager.should_retry]

/-! ## Presence manager lemmas -/

theorem bare_jid_idem (j : Str) : bare_jid (bare_jid j) = bare_jid j := by
  induction j with
  | nil => rfl
  | cons c rest ih =>
    by_cases hc : c = '/'
    · simp [bare_jid, hc]
    · simp [bare_jid, hc, ih]

/-- C1: what `PresenceManager::handle_event` actually does at the failing
input. `ConnectionEstablished` immediately sets `own.show = available` and
emits one `ui.presence.set {available, status: None}` (instead of keeping
`show = unavailable` and staying silent until the roster arrives), and
`RosterReceived` is not handled at all: it changes no state and emits
nothing. -/
theorem presence_connection_established_behavior :
    (PresenceManager.handle_event ⟨⟨[], .unavailable, none, 0, 0⟩, []⟩ 1
        (.connectionEstablished "alice@example.com".data)).1.own.show_ =
      .available ∧
    (PresenceManager.handle_event ⟨⟨[], .unavailable, none, 0, 0⟩, []⟩ 1
        (.connectionEstablished "alice@example.com".data)).2 =
      [⟨"ui.presence.set".data, none, .presenceSetRequested .available none⟩] ∧
    (∀ st now items,
      PresenceManager.handle_event st now (.rosterReceived items) = (st, [])) := by
  refine ⟨by decide, by decide, fun st now items => rfl⟩

/-- C9: `get_presence(j)` agrees with `get_presence(bare_jid(j))` for every
jid and every contact map (and every query time). -/
theorem get_presence_bare_jid (contacts : ContactMap) (j : Str) (now : Nat) :
    PresenceManager.get_presence contacts j now =
      PresenceManager.get_presence contacts (bare_jid j) now := by
  simp [PresenceManager.get_presence, bare_jid_idem]

/-- C10: `get_presence` is total — when the bare form of the queried jid
has no entry in the contact map, it returns the `unavailable` record with
`status = None`, `priority = 0` and `jid` the bare form, rather than an
error or absence marker. -/
theorem get_presence_total (contacts : ContactMap) (j : Str) (now : Nat)
    (h : contacts.lookup (bare_jid j) = none) :
    PresenceManager.get_presence contacts j now =
      PresenceInfo.unavailable (bare_jid j) now ∧
    (PresenceManager.get_presence contacts j now).show_ = .unavailable ∧
    (PresenceManager.get_presence contacts j now).status = none ∧
    (PresenceManager.get_presence contacts j now).priority = 0 ∧
    (PresenceManager.get_presence contacts j now).jid = bare_jid j := by
  simp [PresenceManager.get_presence, h, PresenceInfo.unavailable]

/-- Witness for C10 at the concrete jid `"alice@example.com/desk"` and the
empty contact map. -/
theorem get_presence_total_witness :
    ([] : ContactMap).lookup (bare_jid "alice@example.com/desk".data) = none ∧
    (PresenceManager.get_presence [] "alice@example.com/desk".data 0 =
        PresenceInfo.unavailable (bare_jid "alice@example.com/desk".data) 0 ∧
      (PresenceManager.get_presence [] "alice@example.com/desk".data 0).show_ =
        .unavailable ∧
      (PresenceManager.get_presence [] "alice@example.com/desk".data 0).status = none ∧
      (PresenceManager.get_presence [] "alice@example.com/desk".data 0).priority = 0 ∧
      (PresenceManager.get_presence [] "alice@example.com/desk".data 0).jid =
        bare_jid "alice@example.com/desk".data) :=
  ⟨rfl, get_presence_total [] "alice@example.com/desk".data 0 rfl⟩

/-! ## MAM manager lemmas -/

theorem syncLoop_spec (query_id : Str) (pages : List PageResult) :
    ∀ (db : MamDb) (after : Option Str) (db' : MamDb) (n : Nat)
      (ms : List ChatMessage) (es : List Emitted),
      syncLoop query_id db after pages = some (db', n, ms, es) →
      n = ms.length ∧ es.filter isSyncStartedEvt = [] ∧
        es.filter isSyncCompletedEvt = [] := by
  induction pages with
  | nil =>
    intro db after db' n ms es h
    simp [syncLoop] at h
  | cons p rest ih =>
    intro db after db' n ms es h
    simp only [syncLoop] at h
    by_cases hc : pageComplete p
    · rw [if_pos hc] at h
      simp only [Option.some.injEq, Prod.mk.injEq] at h
      obtain ⟨-, hn, hms, hes⟩ := h
      subst hn hms hes
      simp [isSyncStartedEvt, isSyncCompletedEvt, List.filter]
    · rw [if_neg hc] at h
      cases hsl : syncLoop query_id (applyPage db p) (nextAfter after p) rest with
      | none => rw [hsl] at h; cases h
      | some val =>
        obtain ⟨db3, n2, ms2, es2⟩ := val
        rw [hsl] at h
        simp only [Option.some.injEq, Prod.mk.injEq] at h
        obtain ⟨-, hn, hms, hes⟩ := h
        obtain ⟨ihn, ihs, ihc⟩ := ih _ _ _ _ _ _ hsl
        subst hn hms hes
        simp [isSyncStartedEvt, isSyncCompletedEvt, List.filter, ihs, ihc, ihn]

theorem syncLoop_head (query_id : Str) (db : MamDb) (a : Option Str)
    (p : PageResult) (rest : List PageResult) (db3 : MamDb) (n : Nat)
    (ms : List ChatMessage) (es : List Emitted)
    (h : syncLoop query_id db a (p :: rest) = some (db3, n, ms, es)) :
    es.head? = some ⟨"ui.mam.query".data, none,
      .mamQueryRequested query_id a none 50⟩ := by
  simp only [syncLoop] at h
  by_cases hc : pageComplete p
  · rw [if_pos hc] at h
    simp only [Option.some.injEq, Prod.mk.injEq] at h
    obtain ⟨-, -, -, hes⟩ := h
    subst hes
    rfl
  · rw [if_neg hc] at h
    cases hsl : syncLoop query_id (applyPage db p) (nextAfter a p) rest with
    | none => rw [hsl] at h; cases h
    | some val =>
      obtain ⟨db4, n2, ms2, es2⟩ := val
      rw [hsl] at h
      simp only [Option.some.injEq, Prod.mk.injEq] at h
      obtain ⟨-, -, -, hes⟩ := h
      subst hes
      rfl

/-- C6: every successful `sync_since` run emits exactly one `SyncStarted`
and exactly one `SyncCompleted`, both carrying the run's correlation id,
and the `SyncCompleted` payload's `messages_synced` equals the number of
messages collected over all pages of the sync (the loop's collected list
`ms`). -/
theorem sync_since_correlation (db : MamDb) (query_id : Str) (corr : Nat)
    (pages : List PageResult) (db' : MamDb) (res : MamSyncResult)
    (events : List Emitted)
    (h : MamManager.sync_since db query_id corr pages = some (db', res, events)) :
    events.filter isSyncStartedEvt =
      [⟨"system.sync.started".data, some corr, .syncStarted⟩] ∧
    events.filter isSyncCompletedEvt =
      [⟨"system.sync.completed".data, some corr,
        .syncCompleted res.messages_synced⟩] ∧
    ∃ ms es,
      syncLoop query_id db (MamManager.get_last_stanza_id db []) pages =
        some (db', res.messages_synced, ms, es) ∧
      res.messages_synced = ms.length := by
  simp only [MamManager.sync_since] at h
  cases hsl : syncLoop query_id db (MamManager.get_last_stanza_id db []) pages with
  | none => rw [hsl] at h; cases h
  | some val =>
    obtain ⟨db0, total, ms, es⟩ := val
    rw [hsl] at h
    simp only [Option.some.injEq, Prod.mk.injEq] at h
    obtain ⟨hdb, hres, hev⟩ := h
    obtain ⟨ihn, ihs, ihc⟩ := syncLoop_spec query_id pages db _ db0 total ms es hsl
    subst hdb hev
    subst hres
    refine ⟨?_, ?_, ms, es, by simp [hsl], ihn⟩
    · simp [List.filter_cons, List.filter_append, ihs, isSyncStartedEvt,
        isSyncCompletedEvt]
    · simp [List.filter_cons, List.filter_append, ihc, isSyncStartedEvt,
        isSyncCompletedEvt]

/-- Witness for C6: a concrete one-page sync carrying one message, with
correlation id 7. -/
theorem sync_since_correlation_witness :
    mamEventsW.filter isSyncStartedEvt =
      [⟨"system.sync.started".data, some 7, .syncStarted⟩] ∧
    mamEventsW.filter isSyncCompletedEvt =
      [⟨"system.sync.completed".data, some 7, .syncCompleted 1⟩] ∧
    ∃ ms es,
      syncLoop "q".data mamDbW (MamManager.get_last_stanza_id mamDbW []) [mamPageW] =
        some (mamDbW1, 1, ms, es) ∧
      (1 : Nat) = ms.length :=
  sync_since_correlation mamDbW "q".data 7 [mamPageW] mamDbW1 ⟨1, true⟩ mamEventsW rfl

/-- C7: during `sync_since` the first `ui.mam.query` is emitted with
`after` equal to the stored `"__global__"` cursor (`None` when absent) and
`max = 50`; and after a successfully collected page whose last seen id is
`L`, the persisted `"__global__"` cursor equals `L` and the next query (if
the loop continues) uses `after = L`. -/
theorem mam_cursor_monotonic (db : MamDb) (query_id : Str) (corr : Nat)
    (p : PageResult) (L : Str) (hL : p.lastId = some L) :
    (∀ rest db' res events,
      MamManager.sync_since db query_id corr (p :: rest) = some (db', res, events) →
      events[1]? = some ⟨"ui.mam.query".data, none,
        .mamQueryRequested query_id (MamManager.get_last_stanza_id db []) none 50⟩) ∧
    MamManager.get_last_stanza_id (applyPage db p) [] = some L ∧
    (∀ after, nextAfter after p = some L) ∧
    (∀ after p2 rest db3 n ms es,
      pageComplete p = false →
      syncLoop query_id db after (p :: p2 :: rest) = some (db3, n, ms, es) →
      es[1]? = some ⟨"ui.mam.query".data, none,
        .mamQueryRequested query_id (some L) none 50⟩) := by
  refine ⟨?_, ?_, ?_, ?_⟩
  · intro rest db' res events h
    simp only [MamManager.sync_since] at h
    cases hsl : syncLoop query_id db (MamManager.get_last_stanza_id db [])
        (p :: rest) with
    | none => rw [hsl] at h; cases h
    | some val =>
      obtain ⟨db0, total, ms, es⟩ := val
      rw [hsl] at h
      simp only [Option.some.injEq, Prod.mk.injEq] at h
      obtain ⟨-, -, hev⟩ := h
      have hhead := syncLoop_head query_id db _ p rest db0 total ms es hsl
      cases es with
      | nil => cases hhead
      | cons q es2 =>
        simp only [List.head?_cons, Option.some.injEq] at hhead
        subst hev hhead
        simp
  · simp only [applyPage, hL, MamManager.update_sync_state,
      MamManager.get_last_stanza_id, normJid]
    simp [List.lookup]
  · intro after
    simp [nextAfter, hL]
  · intro after p2 rest db3 n ms es hnc h
    generalize hrest : (p2 :: rest : List PageResult) = tail at h
    simp only [syncLoop] at h
    rw [if_neg (by simp [hnc])] at h
    cases hsl2 : syncLoop query_id (applyPage db p) (nextAfter after p) tail with
    | none => rw [hsl2] at h; cases h
    | some val =>
      obtain ⟨db4, n2, ms2, es2⟩ := val
      rw [hsl2] at h
      simp only [Option.some.injEq, Prod.mk.injEq] at h
      obtain ⟨-, -, -, hes⟩ := h
      subst hrest
      have hhead := syncLoop_head query_id (applyPage db p) (nextAfter after p)
        p2 rest db4 n2 ms2 es2 hsl2
      have hna : nextAfter after p = some L := by simp [nextAfter, hL]
      rw [hna] at hhead
      cases es2 with
      | nil => cases hhead
      | cons q2 es3 =>
        simp only [List.head?_cons, Option.some.injEq] at hhead
        subst hes hhead
        simp

/-- Witness for C7 at the concrete empty database and the concrete page
`mamPageW` whose last seen id is `"a1"`. -/
theorem mam_cursor_monotonic_witness :
    (∀ rest db' res events,
      MamManager.sync_since mamDbW "q".data 0 (mamPageW :: rest) =
          some (db', res, events) →
      events[1]? = some ⟨"ui.mam.query".data, none,
        .mamQueryRequested "q".data (MamManager.get_last_stanza_id mamDbW []) none 50⟩) ∧
    MamManager.get_last_stanza_id (applyPage mamDbW mamPageW) [] = some "a1".data ∧
    (∀ after, nextAfter after mamPageW = some "a1".data) ∧
    (∀ after p2 rest db3 n ms es,
      pageComplete mamPageW = false →
      syncLoop "q".data mamDbW after (mamPageW :: p2 :: rest) =
          some (db3, n, ms, es) →
      es[1]? = some ⟨"ui.mam.query".data, none,
        .mamQueryRequested "q".data (some "a1".data) none 50⟩) :=
  mam_cursor_monotonic mamDbW "q".data 0 mamPageW "a1".data rfl

theorem collectLoop_fin (iq_id : Str) (complete : Bool) (fin_last : Option Str)
    (post : List CollectorInput) (pre : List CollectorInput) :
    ∀ (msgs : List ChatMessage) (acc : Option Str),
      (∀ i ∈ pre, isFinInput i = false) →
      (∀ i ∈ pre, isFatalInput i = false) →
      collectLoop msgs acc
          (pre ++ .ev (.mamFinReceived iq_id complete fin_last) :: post) =
        .ok (msgs ++ resultMessages pre, complete,
          match fin_last with
          | some id => some id
          | none => lastIdAfter acc pre) := by
  induction pre with
  | nil =>
    intro msgs acc _ _
    simp [collectLoop, resultMessages, lastIdAfter]
  | cons i rest ih =>
    intro msgs acc hfin hfatal
    have hfinTail : ∀ j ∈ rest, isFinInput j = false :=
      fun j hj => hfin j (List.mem_cons_of_mem _ hj)
    have hfatalTail : ∀ j ∈ rest, isFatalInput j = false :=
      fun j hj => hfatal j (List.mem_cons_of_mem _ hj)
    cases i with
    | ev p =>
      cases p with
      | mamResultReceived q msgs2 c =>
        simp only [List.cons_append, collectLoop, resultMessages, lastIdAfter,
          List.append_eq]
        rw [ih _ _ hfinTail hfatalTail]
        simp [List.append_assoc]
      | mamFinReceived a b c =>
        exact absurd (hfin _ (List.mem_cons_self _ _)) (by simp [isFinInput])
      | connectionEstablished jid =>
        simp only [List.cons_append, collectLoop, resultMessages, lastIdAfter,
          List.append_eq]
        exact ih _ _ hfinTail hfatalTail
      | connectionLost r w =>
        simp only [List.cons_append, collectLoop, resultMessages, lastIdAfter,
          List.append_eq]
        exact ih _ _ hfinTail hfatalTail
      | connectionReconnecting a =>
        simp only [List.cons_append, collectLoop, resultMessages, lastIdAfter,
          List.append_eq]
        exact ih _ _ hfinTail hfatalTail
      | syncStarted =>
        simp only [List.cons_append, collectLoop, resultMessages, lastIdAfter,
          List.append_eq]
        exact ih _ _ hfinTail hfatalTail
      | syncCompleted a =>
        simp only [List.cons_append, collectLoop, resultMessages, lastIdAfter,
          List.append_eq]
        exact ih _ _ hfinTail hfatalTail
      | errorOccurred a b c =>
        simp only [List.cons_append, collectLoop, resultMessages, lastIdAfter,
          List.append_eq]
        exact ih _ _ hfinTail hfatalTail
      | rosterReceived items =>
        simp only [List.cons_append, collectLoop, resultMessages, lastIdAfter,
          List.append_eq]
        exact ih _ _ hfinTail hfatalTail
      | presenceChanged a b c =>
        simp only [List.cons_append, collectLoop, resultMessages, lastIdAfter,
          List.append_eq]
        exact ih _ _ hfinTail hfatalTail
      | ownPresenceChanged a b =>
        simp only [List.cons_append, collectLoop, resultMessages, lastIdAfter,
          List.append_eq]
        exact ih _ _ hfinTail hfatalTail
      | presenceSetRequested a b =>
        simp only [List.cons_append, collectLoop, resultMessages, lastIdAfter,
          List.append_eq]
        exact ih _ _ hfinTail hfatalTail
      | mamQueryRequested a b c d =>
        simp only [List.cons_append, collectLoop, resultMessages, lastIdAfter,
          List.append_eq]
        exact ih _ _ hfinTail hfatalTail
    | busError e =>
      cases e with
      | lagged c =>
        simp only [List.cons_append, collectLoop, resultMessages, lastIdAfter,
          List.append_eq]
        exact ih _ _ hfinTail hfatalTail
      | invalidChannel c =>
        exact absurd (hfatal _ (List.mem_cons_self _ _)) (by simp [isFatalInput])
      | invalidPattern c =>
        exact absurd (hfatal _ (List.mem_cons_self _ _)) (by simp [isFatalInput])
      | channelClosed =>
        exact absurd (hfatal _ (List.mem_cons_self _ _)) (by simp [isFatalInput])

/-- C8: the MAM result collector does not filter by `query_id` — whatever
query id the collection was started for, every `MamResultReceived` event's
messages are appended, and the first `MamFinReceived` (whatever its
origin) terminates the collection, discarding everything after it. -/
theorem collector_ignores_query_id (query_id : Str) (pre : List CollectorInput)
    (iq_id : Str) (complete : Bool) (fin_last : Option Str)
    (post : List CollectorInput)
    (hfin : ∀ i ∈ pre, isFinInput i = false)
    (hfatal : ∀ i ∈ pre, isFatalInput i = false) :
    MamManager.collect_query_results query_id
        (pre ++ .ev (.mamFinReceived iq_id complete fin_last) :: post) =
      .ok (resultMessages pre, complete,
        match fin_last with
        | some id => some id
        | none => lastIdAfter none pre) := by
  unfold MamManager.collect_query_results
  simpa using collectLoop_fin iq_id complete fin_last post pre [] none hfin hfatal

/-- Witness for C8: the collection requested under query id `"q1"` still
collects a result event tagged `"other"`, and the first fin terminates it
even though a later fin follows. -/
theorem collector_ignores_query_id_witness :
    (∀ i ∈ preW, isFinInput i = false) ∧
    (∀ i ∈ preW, isFatalInput i = false) ∧
    MamManager.collect_query_results "q1".data
        (preW ++ .ev (.mamFinReceived "iq".data true none) ::
          [.ev (.mamFinReceived "x".data false (some "z".data))]) =
      .ok (resultMessages preW, true, lastIdAfter none preW) :=
  ⟨by decide, by decide,
    collector_ignores_query_id "q1".data preW "iq".data true none
      [.ev (.mamFinReceived "x".data false (some "z".data))]
      (by decide) (by decide)⟩
